import Mathlib

/-!
Shallow embedding of the broadcast-modules hub (Go) for checking its
natural-language specification.

Sources embedded here:
* `src/hub/message.go` — the `Message` envelope and `NewMessage`.
* `src/hub/module.go` — the peer endpoint (`Module`), in particular the
  `from`-rewriting performed by `ReadPump` on each inbound frame.
* `src/hub/hub.go` — the hub registry state and the handlers
  `handleRegister`, `handleExternalPluginRegister`, `handleMainModuleRegister`,
  `handlePluginRegister`, `handleSubscribe`, `handleUnsubscribe`,
  `routeMessage`, `broadcastToAll`, `broadcastToClass`, `hasCapability`.
* `src/hub/plugin_manager.go` (second variant in the file, the one whose
  line ranges the spec cites) — `StartPlugin`, `monitorProcess`,
  `StopPlugin`, `StopAllPlugins`, `ResetRestartCount`.

Modelling conventions:
* Go maps are modelled as association lists; the list order stands for the
  (arbitrary) map iteration order of Go.
* Go pointer identity of `*Module` is modelled by a `conn : Nat` field
  (one number per accepted connection).
* Channel sends performed with `select`/`default` (non-blocking, drop on
  full) update the bounded `Send` queue in the state; channel sends written
  as plain `ch <- data` in registration handlers (blocking) are modelled as
  emitted `Effect`s.
* Wall-clock timestamps (`time.Now()`) are not modelled; the `Timestamp`
  field of constructed messages is `""`.
* JSON marshalling of the envelopes built by the hub always succeeds in Go
  (string-keyed maps of strings); `ToJSON` is therefore modelled as the
  identity and frames on send queues are `Message` values.
-/

namespace BroadcastHub

/-- A JSON payload value as seen through Go type assertions: a string, an
array (`[]interface{}`, whose elements are either strings or something
else), or any other JSON value. -/
inductive PValue where
  | str : String → PValue
  | list : List (Option String) → PValue
  | other : PValue
deriving DecidableEq

/-- `payload` field: `map[string]interface{}` in Go, as an association list. -/
abbrev Payload := List (String × PValue)

/-- Go `v, ok := payload[k].(string)`: `some v` iff the key is present and
holds a string. -/
def payloadGetStr (p : Payload) (k : String) : Option String :=
  match p.find? (fun kv => kv.1 == k) with
  | some (_, PValue.str s) => some s
  | _ => none

/-- Go `v, _ := payload[k].(string)`: the string, or `""` (the zero value)
when the key is absent or not a string. -/
def payloadStr (p : Payload) (k : String) : String :=
  (payloadGetStr p k).getD ""

/-- The wire envelope (`Message` in `src/hub/message.go`). The Go field
`Type` is rendered `Typ` (`Type` is reserved in Lean). -/
structure Message where
  From : String
  To : String
  Typ : String
  Payload : Payload
  Timestamp : String
deriving DecidableEq

/-- `NewMessage` from `src/hub/message.go`; the `time.Now()` timestamp is
not modelled and is rendered `""`. -/
def NewMessage (from_ to_ typ : String) (payload : Payload) : Message :=
  { From := from_, To := to_, Typ := typ, Payload := payload, Timestamp := "" }

/-- A peer endpoint (`Module` in `src/hub/module.go`). `conn` models the
identity of the underlying `*websocket.Conn`/`*Module` pointer, `Send` the
contents of the buffered send channel (capacity 256). The Go field `Type`
is rendered `Typ`. -/
structure Module where
  conn : Nat
  ID : String
  Name : String
  Host : String
  Port : String
  ComponentType : String
  Typ : String
  IsActive : Bool
  Capabilities : List String
  Send : List Message
deriving DecidableEq

/-- `NewModule` in `src/hub/module.go`: a fresh connection has empty id,
inactive, empty send buffer. -/
def NewModule (conn : Nat) : Module :=
  { conn := conn, ID := "", Name := "", Host := "", Port := "",
    ComponentType := "", Typ := "", IsActive := false,
    Capabilities := [], Send := [] }

/-- The `from`-rewriting that `ReadPump` (`src/hub/module.go`) applies to
every well-parsed inbound frame before handing it to the hub, embedded
statement by statement:

    if m.ID != "" {
        msg.From = m.ID
    }
    ...
    msg.From = m.ID

The guarded assignment is followed by an unconditional one. -/
def readPumpFromRewrite (m : Module) (msg : Message) : Message :=
  let msg1 := if m.ID ≠ "" then { msg with From := m.ID } else msg
  { msg1 with From := m.ID }

/-- External-plugin record (`ExternalPlugin` in `src/hub/hub.go`).
`connRef` models the `Module` pointer (`none` = nil); the two `time.Time`
fields (`LastHeartbeat`, `ConnectedAt`) are not modelled. -/
structure ExternalPluginRec where
  PluginID : String
  IP : String
  connRef : Option Nat
  Status : String
deriving DecidableEq

/-- The hub registry (`Hub` in `src/hub/hub.go`), restricted to the fields
the routing and registration core reads and writes. Maps are association
lists; `PendingModules` is the set of not-yet-registered connections, its
list order standing for Go's arbitrary map iteration order. -/
structure HubState where
  MainModule : Option Module
  Plugins : List (String × Module)
  ExpectedPlugins : List String
  ExternalPlugins : List (String × ExternalPluginRec)
  PendingModules : List Module
deriving DecidableEq

/-- Observable side effects of registration handlers: a (blocking) channel
send of a frame to the module on connection `c`, closing that connection,
or asking the supervisor to start a plugin. -/
inductive Effect where
  | sendConn : Nat → Message → Effect
  | closeConn : Nat → Effect
  | startPlugin : String → Effect
deriving DecidableEq

/-- Go map lookup `l[k]` on an association list (first matching key). -/
def lookupP (l : List (String × Module)) (k : String) : Option Module :=
  (l.find? (fun kv => kv.1 == k)).map (fun kv => kv.2)

/-- Replace the value at the first occurrence of key `k` (Go map update of
an existing key). -/
def setKey : List (String × Module) → String → Module → List (String × Module)
  | [], _, _ => []
  | kv :: rest, k, v => if kv.1 = k then (k, v) :: rest else kv :: setKey rest k v

/-- Go map insert `l[k] = v`: overwrite the existing key or append. -/
def insertP (l : List (String × Module)) (k : String) (v : Module) :
    List (String × Module) :=
  if (l.find? (fun kv => kv.1 == k)).isSome then setKey l k v else l ++ [(k, v)]

/-- Go map insert for the external-plugins table. -/
def insertExt (l : List (String × ExternalPluginRec)) (k : String)
    (v : ExternalPluginRec) : List (String × ExternalPluginRec) :=
  if (l.find? (fun kv => kv.1 == k)).isSome then
    l.map (fun kv => if kv.1 = k then (k, v) else kv)
  else l ++ [(k, v)]

/-- The pending-module search loop shared by `handleRegister` and
`handleExternalPluginRegister` (`src/hub/hub.go`):

    for m := range h.PendingModules {
        if m.ID == "" || m.ID == id {
            module = m
            delete(h.PendingModules, m)
            break
        }
    }

Returns the module bound first in iteration order together with the
remaining pending set. -/
def findRemovePending : List Module → String → Option (Module × List Module)
  | [], _ => none
  | m :: rest, id =>
    if m.ID = "" ∨ m.ID = id then some (m, rest)
    else
      match findRemovePending rest id with
      | some (f, r) => some (f, m :: r)
      | none => none

/-- `notifyPluginOnline` (`src/hub/hub.go`): a `plugin_online` frame to the
main module, when one is present and active. -/
def notifyPluginOnline (h : HubState) (plugin : Module) : List Effect :=
  match h.MainModule with
  | some mm =>
    if mm.IsActive then
      [Effect.sendConn mm.conn (NewMessage "hub" mm.ID "plugin_online"
        [("plugin_id", PValue.str plugin.ID),
         ("plugin_name", PValue.str plugin.Name),
         ("plugin_type", PValue.str plugin.Typ)])]
    else []
  | none => []

/-- `notifyMainModuleExternalPluginStatus` (`src/hub/hub.go`): an
`external_plugin_status_update` frame to the main module (non-blocking in
Go; the full-buffer drop is not distinguished here). Timestamp/uptime
payload entries are not modelled. -/
def notifyMainModuleExternalPluginStatus (h : HubState)
    (ext : ExternalPluginRec) : List Effect :=
  match h.MainModule with
  | some mm =>
    if mm.IsActive then
      [Effect.sendConn mm.conn (NewMessage "hub" mm.ID
        "external_plugin_status_update"
        [("plugin_id", PValue.str ext.PluginID),
         ("status", PValue.str ext.Status)])]
    else []
  | none => []

/-- The non-error tail of `handleMainModuleRegister` (`src/hub/hub.go`):
install the module as the main module, confirm with a `registered`
envelope, and notify it (`plugin_online`) of every active plugin other
than itself. -/
def mainModuleInstall (h : HubState) (module : Module) :
    HubState × List Effect :=
  let m' := { module with ComponentType := "main_module" }
  let h' := { h with MainModule := some m' }
  let confirm := Effect.sendConn m'.conn (NewMessage "hub" m'.ID "registered"
    [("status", PValue.str "main_module_active"),
     ("hub_version", PValue.str "2.1.0")])
  let notifies :=
    (h'.Plugins.filter
      (fun kv => kv.2.IsActive && kv.2.conn != m'.conn)).map
      (fun kv => Effect.sendConn m'.conn (NewMessage "hub" m'.ID
        "plugin_online"
        [("plugin_id", PValue.str kv.2.ID),
         ("plugin_name", PValue.str kv.2.Name),
         ("plugin_type", PValue.str kv.2.Typ)]))
  (h', confirm :: notifies)

/-- `handleMainModuleRegister` (`src/hub/hub.go`). If another main module
(a different connection) is active, reply with an `error` envelope carrying
code `main_module_already_active`, close the offender, and leave the state
unchanged; otherwise install the module as the main module. -/
def handleMainModuleRegister (h : HubState) (module : Module) :
    HubState × List Effect :=
  match h.MainModule with
  | some mm =>
    if mm.conn ≠ module.conn then
      (h, [Effect.sendConn module.conn (NewMessage "hub" module.ID "error"
            [("code", PValue.str "main_module_already_active"),
             ("message", PValue.str "Another main module is running"),
             ("active_module", PValue.str mm.ID)]),
          Effect.closeConn module.conn])
    else
      mainModuleInstall h module
  | none => mainModuleInstall h module

/-- `handlePluginRegister` (`src/hub/hub.go`): put the module in the
plugins map under its id, mark it a `plugin`, confirm with `registered`,
and notify the main module (`plugin_online`) when the plugin is expected.
The `PluginManager` status promotion and the health-monitor registration
are bookkeeping in other subsystems and are not part of this state. -/
def handlePluginRegister (h : HubState) (plugin : Module) :
    HubState × List Effect :=
  let p' := { plugin with ComponentType := "plugin" }
  let isExpected := h.ExpectedPlugins.contains p'.ID
  let h' := { h with Plugins := insertP h.Plugins p'.ID p' }
  let confirm := Effect.sendConn p'.conn (NewMessage "hub" p'.ID "registered"
    [("status", PValue.str "plugin_active")])
  let notifies := if isExpected then notifyPluginOnline h' p' else []
  (h', confirm :: notifies)

/-- The tail of `handleExternalPluginRegister` once the sending module has
been located: rebind it to the plugin id, mark it `external_plugin`, create
or update the external record, insert into the plugins map, confirm, and
notify the main module. Pointer aliasing of the bound module is modelled by
rewriting every plugins-map entry holding the same connection. -/
def finishExternalRegister (h : HubState) (m : Module) (pluginID ip : String) :
    HubState × List Effect :=
  let m' := { m with ID := pluginID, Name := pluginID,
                     ComponentType := "external_plugin", IsActive := true }
  let aliased := h.Plugins.map
    (fun kv => if kv.2.conn = m.conn then (kv.1, m') else kv)
  let ext : ExternalPluginRec :=
    { PluginID := pluginID, IP := ip, connRef := some m.conn,
      Status := "connected" }
  let h' := { h with Plugins := insertP aliased pluginID m',
                     ExternalPlugins := insertExt h.ExternalPlugins pluginID ext }
  let confirm := Effect.sendConn m.conn (NewMessage "hub" pluginID "registered"
    [("plugin_id", PValue.str pluginID),
     ("status", PValue.str "connected")])
  (h', confirm :: notifyMainModuleExternalPluginStatus h' ext)

/-- `handleExternalPluginRegister` (`src/hub/hub.go`): resolve
`payload.plugin_id` (missing → log and return), bind the sending module
(first pending module with empty id or id equal to `msg.From`, else an
already-registered plugin whose id equals `msg.From`, else log and
return), and finish the registration. -/
def handleExternalPluginRegister (h : HubState) (msg : Message) :
    HubState × List Effect :=
  match payloadGetStr msg.Payload "plugin_id" with
  | none => (h, [])
  | some pluginID =>
    let ip := payloadStr msg.Payload "ip"
    match findRemovePending h.PendingModules msg.From with
    | some (m, rest) =>
      finishExternalRegister { h with PendingModules := rest } m pluginID ip
    | none =>
      match h.Plugins.find? (fun kv => kv.2.ID == msg.From) with
      | some kv => finishExternalRegister h kv.2 pluginID ip
      | none => (h, [])

/-- `handleRegister` (`src/hub/hub.go`): extract the payload fields with
Go's zero-value type assertions; when `plugin_id` is present and `id` is
empty, divert to the external-plugin path; otherwise bind a pending module
(empty id or matching id; none found → log and return with no state
change), stamp its identity, and hand over to the main-module or plugin
registrar depending on `component_type`. -/
def handleRegister (h : HubState) (msg : Message) : HubState × List Effect :=
  let id := payloadStr msg.Payload "id"
  let name := payloadStr msg.Payload "name"
  let moduleType := payloadStr msg.Payload "type"
  let host := payloadStr msg.Payload "host"
  let port := payloadStr msg.Payload "port"
  let componentType := payloadStr msg.Payload "component_type"
  let hasPluginID := (payloadGetStr msg.Payload "plugin_id").isSome
  if hasPluginID = true ∧ id = "" then
    handleExternalPluginRegister h msg
  else
    match findRemovePending h.PendingModules id with
    | none => (h, [])
    | some (m, rest) =>
      let m' := { m with ID := id, Name := name, Typ := moduleType,
                         Host := host, Port := port, IsActive := true }
      let h' := { h with PendingModules := rest }
      if componentType = "main_module" then handleMainModuleRegister h' m'
      else handlePluginRegister h' m'

/-- The class names extracted from `payload.class` by `handleSubscribe`:
a single string yields itself (even when empty); a JSON array keeps its
non-empty string elements; anything else is invalid and yields nothing. -/
def subClassNames (p : Payload) : List String :=
  match p.find? (fun kv => kv.1 == "class") with
  | some (_, PValue.str s) => [s]
  | some (_, PValue.list items) =>
    items.filterMap (fun o =>
      match o with
      | some s => if s ≠ "" then some s else none
      | none => none)
  | _ => []

/-- The capability-adding loop of `handleSubscribe`: append the class name
unless already present. -/
def addCapability (caps : List String) (c : String) : List String :=
  if caps.contains c then caps else caps ++ [c]

/-- Fold of `addCapability` over all extracted class names. -/
def addCapabilities (caps : List String) (cs : List String) : List String :=
  cs.foldl addCapability caps

/-- `handleSubscribe` (`src/hub/hub.go`): locate the sender (main module by
id, else plugins-map key `msg.From`); missing sender, invalid `class`
payload, or an empty extracted class list is a no-op. Otherwise add each
class to the module's capabilities, skipping duplicates. -/
def handleSubscribe (h : HubState) (msg : Message) : HubState :=
  let cns := subClassNames msg.Payload
  let subPlugin : HubState :=
    (match lookupP h.Plugins msg.From with
     | some m =>
       if cns = [] then h
       else
         let m' := { m with Capabilities := addCapabilities m.Capabilities cns }
         { h with Plugins := setKey h.Plugins msg.From m' }
     | none => h)
  match h.MainModule with
  | some mm =>
    if mm.ID = msg.From then
      if cns = [] then h
      else
        let mm' := { mm with Capabilities := addCapabilities mm.Capabilities cns }
        { h with MainModule := some mm' }
    else subPlugin
  | none => subPlugin

/-- `handleUnsubscribe` (`src/hub/hub.go`): `payload.class` must be a
string (else return); locate the sender as in subscribe; when found, keep
only the capabilities different from the named class. -/
def handleUnsubscribe (h : HubState) (msg : Message) : HubState :=
  match payloadGetStr msg.Payload "class" with
  | none => h
  | some className =>
    let unsubPlugin : HubState :=
      (match lookupP h.Plugins msg.From with
       | some m =>
         let m' := { m with Capabilities := m.Capabilities.filter (fun c => c != className) }
         { h with Plugins := setKey h.Plugins msg.From m' }
       | none => h)
    match h.MainModule with
    | some mm =>
      if mm.ID = msg.From then
        let mm' := { mm with Capabilities := mm.Capabilities.filter (fun c => c != className) }
        { h with MainModule := some mm' }
      else unsubPlugin
    | none => unsubPlugin

/-- `hasCapability` (`src/hub/hub.go`): membership in the capabilities
slice (a nil slice has no members). -/
def hasCapability (m : Module) (capability : String) : Bool :=
  m.Capabilities.contains capability

/-- Write the `Capabilities` field of a module (the mutation
`module.Capabilities = ...` in the subscribe/unsubscribe handlers). -/
def setCaps (m : Module) (caps : List String) : Module :=
  { m with Capabilities := caps }

/-- The non-blocking channel send used by the routing paths
(`select { case ch <- data: ... default: drop }`): enqueue iff the bounded
buffer (capacity 256) has room, else drop the frame for this recipient. -/
def enqueueFrame (m : Module) (data : Message) : Module :=
  if m.Send.length < 256 then { m with Send := m.Send ++ [data] } else m

/-- `broadcastToAll` (`src/hub/hub.go`): non-blocking send to the main
module when present and active, then to every active plugin. -/
def broadcastToAll (h : HubState) (msg : Message) : HubState :=
  let h1 :=
    (match h.MainModule with
     | some mm =>
       if mm.IsActive then { h with MainModule := some (enqueueFrame mm msg) }
       else h
     | none => h)
  let plugins' := h1.Plugins.map
    (fun kv => if kv.2.IsActive then (kv.1, enqueueFrame kv.2 msg) else kv)
  { h1 with Plugins := plugins' }

/-- `broadcastToClass` (`src/hub/hub.go`): like `broadcastToAll` but only
to peers whose capabilities contain the class (main module included iff
subscribed). -/
def broadcastToClass (h : HubState) (msg : Message) (className : String) :
    HubState :=
  let h1 :=
    (match h.MainModule with
     | some mm =>
       if mm.IsActive && hasCapability mm className then
         { h with MainModule := some (enqueueFrame mm msg) }
       else h
     | none => h)
  let plugins' := h1.Plugins.map
    (fun kv =>
      if kv.2.IsActive && hasCapability kv.2 className then
        (kv.1, enqueueFrame kv.2 msg)
      else kv)
  { h1 with Plugins := plugins' }

/-- `routeMessage` (`src/hub/hub.go`): `broadcast:<class>` → class
multicast; `broadcast` → wildcard broadcast; `hub` → already handled;
anything else (including the empty string) → unicast to the main module by
id or to the plugins-map entry, non-blocking; destination missing or
inactive → log and drop. -/
def routeMessage (h : HubState) (msg : Message) : HubState :=
  if "broadcast:".isPrefixOf msg.To then
    broadcastToClass h msg (msg.To.drop 10)
  else if msg.To = "broadcast" then
    broadcastToAll h msg
  else if msg.To = "hub" then
    h
  else
    let unicastPlugin : HubState :=
      (match lookupP h.Plugins msg.To with
       | some p =>
         if p.IsActive then
           { h with Plugins := setKey h.Plugins msg.To (enqueueFrame p msg) }
         else h
       | none => h)
    match h.MainModule with
    | some mm =>
      if mm.ID = msg.To then
        if mm.IsActive then { h with MainModule := some (enqueueFrame mm msg) }
        else h
      else unicastPlugin
    | none => unicastPlugin

/-! ## Supervisor (`src/hub/plugin_manager.go`, second variant)

The supervisor spawns OS processes; what is embedded is its bookkeeping:
status strings, the restart counter and cap, the exit channel, and the
`shuttingDown` latch. Spawning is abstracted by a `spawnOk` flag (whether
`cmd.Start()`/the executable lookup succeeds); process exit is an event
`monitorProcess` reacts to, carrying the exit error of `cmd.Wait()`. -/

/-- The restart-policy slice of `PluginConfig` that the supervisor's
control flow reads (`Type`, `RestartOnCrash`, `MaxRestarts`; delays only
sleep and are not modelled as time). Go `int` is rendered `Int`. -/
structure PluginConfig where
  typ : String
  RestartOnCrash : Bool
  MaxRestarts : Int
  RestartDelay : Int
  StartupDelay : Int
  AutoStart : Bool
deriving DecidableEq

/-- `PluginProcess`: mutable supervisor record for one local plugin.
`hasProcess` models `Process != nil`, `exitChanOpen` models
`exitChan != nil` (the channel is open). `StartedAt` (wall clock) is not
modelled. -/
structure PluginProcess where
  Config : PluginConfig
  Status : String
  LastError : Option String
  RestartCount : Int
  hasProcess : Bool
  exitChanOpen : Bool
deriving DecidableEq

/-- `PluginManager` state: the plugins table and the one-shot
`shuttingDown` latch. -/
structure PMState where
  plugins : List (String × PluginProcess)
  shuttingDown : Bool
deriving DecidableEq

/-- Go map lookup on the supervisor's plugins table. -/
def lookupProc (l : List (String × PluginProcess)) (k : String) :
    Option PluginProcess :=
  (l.find? (fun kv => kv.1 == k)).map (fun kv => kv.2)

/-- Update the existing entry for key `k`. -/
def setProc : List (String × PluginProcess) → String → PluginProcess →
    List (String × PluginProcess)
  | [], _, _ => []
  | kv :: rest, k, v => if kv.1 = k then (k, v) :: rest else kv :: setProc rest k v

/-- `StartPlugin` (`src/hub/plugin_manager.go`, second variant). In order:
unknown plugin → error; external → error; already `online`/`starting` →
return nil unchanged; `RestartCount > 0 && RestartCount >= MaxRestarts` →
"exceeded max restarts" error, state unchanged; spawn failure → status
`error` with `LastError` set; success → status `starting`, increment
`RestartCount`, fresh exit channel, process handle set. -/
def StartPlugin (pm : PMState) (pluginID : String) (spawnOk : Bool) :
    PMState × Except String Unit :=
  match lookupProc pm.plugins pluginID with
  | none => (pm, Except.error "plugin not found in config")
  | some p =>
    if p.Config.typ = "external" then
      (pm, Except.error "cannot start external plugin")
    else if p.Status = "online" ∨ p.Status = "starting" then
      (pm, Except.ok ())
    else if p.RestartCount > 0 ∧ p.RestartCount ≥ p.Config.MaxRestarts then
      (pm, Except.error "exceeded max restarts")
    else if spawnOk = false then
      let p' := { p with Status := "error", LastError := some "failed to start plugin" }
      ({ pm with plugins := setProc pm.plugins pluginID p' },
       Except.error "failed to start plugin")
    else
      let p' := { p with hasProcess := true, Status := "starting",
                         RestartCount := p.RestartCount + 1,
                         exitChanOpen := true }
      ({ pm with plugins := setProc pm.plugins pluginID p' }, Except.ok ())

/-- `monitorProcess` (`src/hub/plugin_manager.go`, second variant), the
code run once `cmd.Wait()` returns with exit error `exitErr` (`none` for a
clean exit): close the exit channel (once), set status `error`/`stopped`,
record the error, and auto-restart via `StartPlugin` iff not shutting
down, `RestartOnCrash`, and the restart counter is below the cap. A
plugin id absent from the table would be a nil-pointer dereference in Go
(never reached for monitored plugins) and is a no-op here. -/
def monitorProcess (pm : PMState) (pluginID : String) (exitErr : Option String)
    (spawnOk : Bool) : PMState :=
  match lookupProc pm.plugins pluginID with
  | none => pm
  | some p =>
    let p1 := { p with exitChanOpen := false }
    let p2 : PluginProcess :=
      (match exitErr with
       | some e => { p1 with Status := "error", LastError := some e }
       | none => { p1 with Status := "stopped" })
    let pm2 := { pm with plugins := setProc pm.plugins pluginID p2 }
    if (!pm2.shuttingDown) && p2.Config.RestartOnCrash &&
        decide (p2.RestartCount < p2.Config.MaxRestarts) then
      (StartPlugin pm2 pluginID spawnOk).1
    else pm2

/-- `StopPlugin` (`src/hub/plugin_manager.go`, second variant): unknown →
error; no live process → return nil; otherwise signal kill, wait on the
exit channel (5 s cap), then mark `stopped` and clear the process handle
and exit channel. The final bookkeeping is the same on both wait
outcomes. -/
def StopPlugin (pm : PMState) (pluginID : String) : PMState × Except String Unit :=
  match lookupProc pm.plugins pluginID with
  | none => (pm, Except.error "plugin not found")
  | some p =>
    if p.hasProcess = false then (pm, Except.ok ())
    else
      let p' := { p with Status := "stopped", hasProcess := false,
                         exitChanOpen := false }
      ({ pm with plugins := setProc pm.plugins pluginID p' }, Except.ok ())

/-- `StopAllPlugins` (`src/hub/plugin_manager.go`, second variant): set the
`shuttingDown` latch, then stop every plugin in (arbitrary) table order. -/
def StopAllPlugins (pm : PMState) : PMState :=
  let pm1 := { pm with shuttingDown := true }
  pm1.plugins.foldl (fun acc kv => (StopPlugin acc kv.1).1) pm1

/-- `ResetRestartCount` (`src/hub/plugin_manager.go`, second variant). -/
def ResetRestartCount (pm : PMState) (pluginID : String) :
    PMState × Except String Unit :=
  match lookupProc pm.plugins pluginID with
  | none => (pm, Except.error "plugin not found")
  | some p =>
    ({ pm with plugins := setProc pm.plugins pluginID { p with RestartCount := 0 } },
     Except.ok ())

/-- The supervisor's public operations, for stating lifetime invariants of
the `shuttingDown` latch. -/
inductive PMOp where
  | start : String → Bool → PMOp
  | stop : String → PMOp
  | stopAll : PMOp
  | monitorExit : String → Option String → Bool → PMOp
  | resetCount : String → PMOp

/-- Apply one supervisor operation to the supervisor state. -/
def applyPMOp (pm : PMState) : PMOp → PMState
  | PMOp.start id spawnOk => (StartPlugin pm id spawnOk).1
  | PMOp.stop id => (StopPlugin pm id).1
  | PMOp.stopAll => StopAllPlugins pm
  | PMOp.monitorExit id err spawnOk => monitorProcess pm id err spawnOk
  | PMOp.resetCount id => (ResetRestartCount pm id).1

/-! ## Concrete scenario states

Small concrete hub and supervisor states used to evaluate the handlers at
specific inputs (counterexamples and witnesses). -/

/-- An active registered plugin `beta` with an empty send queue. -/
def betaPlugin : Module :=
  { conn := 1, ID := "beta", Name := "Beta", Host := "", Port := "",
    ComponentType := "plugin", Typ := "timer", IsActive := true,
    Capabilities := [], Send := [] }

/-- A hub with no main module and the single active plugin `beta`. -/
def oneBetaState : HubState :=
  { MainModule := none, Plugins := [("beta", betaPlugin)],
    ExpectedPlugins := [], ExternalPlugins := [], PendingModules := [] }

/-- An envelope with empty `to` and a type no handler intercepts. -/
def emptyToMsg : Message :=
  { From := "alpha", To := "", Typ := "noop", Payload := [], Timestamp := "" }

/-- An active main module with no subscriptions and an empty send queue. -/
def mainA : Module :=
  { conn := 0, ID := "mainA", Name := "Main", Host := "", Port := "",
    ComponentType := "main_module", Typ := "", IsActive := true,
    Capabilities := [], Send := [] }

/-- A hub whose only peer is the active main module `mainA`. -/
def mainOnlyState : HubState :=
  { MainModule := some mainA, Plugins := [],
    ExpectedPlugins := [], ExternalPlugins := [], PendingModules := [] }

/-- A wildcard broadcast whose payload carries no `class` field. -/
def classlessBroadcastMsg : Message :=
  { From := "beta", To := "broadcast", Typ := "timer_updated",
    Payload := [("timer_id", PValue.str "t1")], Timestamp := "" }

/-- A register envelope whose payload has neither `id` nor `plugin_id`. -/
def noIdRegisterMsg : Message :=
  { From := "", To := "hub", Typ := "register", Payload := [], Timestamp := "" }

/-- A hub with a single fresh pending connection and nothing registered. -/
def onePendingState : HubState :=
  { MainModule := none, Plugins := [], ExpectedPlugins := [],
    ExternalPlugins := [], PendingModules := [NewModule 0] }

/-- A register envelope from a second would-be main module `mainB`. -/
def mainBRegisterMsg : Message :=
  { From := "", To := "hub", Typ := "register",
    Payload := [("id", PValue.str "mainB"),
                ("component_type", PValue.str "main_module")],
    Timestamp := "" }

/-- A hub with an active main module and one fresh pending connection. -/
def mainPlusPendingState : HubState :=
  { MainModule := some mainA, Plugins := [], ExpectedPlugins := [],
    ExternalPlugins := [], PendingModules := [NewModule 7] }

/-- Two fresh pending connections (iteration order: conn 0 first). -/
def twoPendingState : HubState :=
  { MainModule := none, Plugins := [], ExpectedPlugins := [],
    ExternalPlugins := [], PendingModules := [NewModule 0, NewModule 1] }

/-- A plain plugin registration for id `p1` (sent, say, on connection 1). -/
def p1RegisterMsg : Message :=
  { From := "", To := "hub", Typ := "register",
    Payload := [("id", PValue.str "p1"), ("name", PValue.str "P One")],
    Timestamp := "" }

/-- A dummy frame used to saturate a send queue. -/
def fillerMsg : Message :=
  { From := "x", To := "y", Typ := "noop", Payload := [], Timestamp := "" }

/-- An active plugin whose send queue is full (256 frames). -/
def slowPlugin : Module :=
  { conn := 2, ID := "slow", Name := "Slow", Host := "", Port := "",
    ComponentType := "plugin", Typ := "", IsActive := true,
    Capabilities := [], Send := List.replicate 256 fillerMsg }

/-- An active plugin with a free send queue. -/
def fastPlugin : Module :=
  { conn := 3, ID := "fast", Name := "Fast", Host := "", Port := "",
    ComponentType := "plugin", Typ := "", IsActive := true,
    Capabilities := [], Send := [] }

/-- A hub with one saturated and one free recipient. -/
def slowFastState : HubState :=
  { MainModule := none, Plugins := [("slow", slowPlugin), ("fast", fastPlugin)],
    ExpectedPlugins := [], ExternalPlugins := [], PendingModules := [] }

/-- A broadcast frame for the saturation scenario. -/
def broadcastMsg : Message :=
  { From := "mainA", To := "broadcast", Typ := "noop", Payload := [],
    Timestamp := "" }

/-- A registered plugin `beta` used for subscription scenarios. -/
def subMsg : Message :=
  { From := "beta", To := "hub", Typ := "subscribe",
    Payload := [("class", PValue.str "timer")], Timestamp := "" }

/-- An unsubscribe for a class `beta` is not subscribed to. -/
def unsubAbsentMsg : Message :=
  { From := "beta", To := "hub", Typ := "unsubscribe",
    Payload := [("class", PValue.str "score")], Timestamp := "" }

/-- `beta` subscribed to the single class `timer`. -/
def betaTimer : Module := { betaPlugin with Capabilities := ["timer"] }

/-- A hub whose only peer is `beta` subscribed to `timer`. -/
def betaTimerState : HubState :=
  { MainModule := none, Plugins := [("beta", betaTimer)],
    ExpectedPlugins := [], ExternalPlugins := [], PendingModules := [] }

/-- An unsubscribe for the class `beta` is subscribed to. -/
def unsubTimerMsg : Message :=
  { From := "beta", To := "hub", Typ := "unsubscribe",
    Payload := [("class", PValue.str "timer")], Timestamp := "" }

/-- An inbound frame whose sender self-identifies as `timer-plugin`. -/
def timerPluginFrame : Message :=
  { From := "timer-plugin", To := "hub", Typ := "register",
    Payload := [("plugin_id", PValue.str "timer-plugin")], Timestamp := "" }

/-- Restart policy with a cap of two for the crash-loop scenario. -/
def capTwoCfg : PluginConfig :=
  { typ := "local", RestartOnCrash := true, MaxRestarts := 2,
    RestartDelay := 100, StartupDelay := 0, AutoStart := true }

/-- The crash-loop plugin before its first start. -/
def capTwoProc0 : PluginProcess :=
  { Config := capTwoCfg, Status := "stopped", LastError := none,
    RestartCount := 0, hasProcess := false, exitChanOpen := false }

/-- Supervisor with the single crash-loop plugin `p`. -/
def capTwoPM0 : PMState := { plugins := [("p", capTwoProc0)], shuttingDown := false }

/-- After the first (successful) start. -/
def capTwoPM1 : PMState := (StartPlugin capTwoPM0 "p" true).1

/-- After the first crash: `monitorProcess` restarts automatically. -/
def capTwoPM2 : PMState := monitorProcess capTwoPM1 "p" (some "exit status 1") true

/-- After the second crash: the cap is reached. -/
def capTwoPM3 : PMState := monitorProcess capTwoPM2 "p" (some "exit status 1") true

/-- A supervisor already shutting down, with one plugin mid-run. -/
def shuttingPM : PMState :=
  { plugins := [("p", { Config := capTwoCfg, Status := "starting",
                        LastError := none, RestartCount := 1,
                        hasProcess := true, exitChanOpen := true })],
    shuttingDown := true }

/-! ## Helper lemmas on the association-list and capability operations -/

theorem lookupP_cons_eq (kv : String × Module) (rest : List (String × Module))
    (k : String) (h : kv.1 = k) : lookupP (kv :: rest) k = some kv.2 := by
  simp [lookupP, List.find?, h]

theorem lookupP_cons_ne (kv : String × Module) (rest : List (String × Module))
    (k : String) (h : (kv.1 == k) = false) :
    lookupP (kv :: rest) k = lookupP rest k := by
  simp [lookupP, List.find?, h]

theorem lookupP_setKey_self (l : List (String × Module)) (k : String)
    (m v : Module) (hl : lookupP l k = some m) :
    lookupP (setKey l k v) k = some v := by
  induction l with
  | nil => simp [lookupP] at hl
  | cons kv rest ih =>
    by_cases hk : kv.1 = k
    · simp [setKey, hk, lookupP, List.find?]
    · have hk' : (kv.1 == k) = false := by simp [hk]
      rw [lookupP_cons_ne kv rest k hk'] at hl
      simp only [setKey, if_neg hk]
      rw [lookupP_cons_ne kv (setKey rest k v) k hk']
      exact ih hl

theorem setKey_setKey (l : List (String × Module)) (k : String) (v w : Module) :
    setKey (setKey l k v) k w = setKey l k w := by
  induction l with
  | nil => simp [setKey]
  | cons kv rest ih =>
    by_cases hk : kv.1 = k
    · simp [setKey, hk]
    · simp [setKey, hk, ih]

theorem setKey_self (l : List (String × Module)) (k : String) (m : Module)
    (hl : lookupP l k = some m) : setKey l k m = l := by
  induction l with
  | nil => simp [setKey]
  | cons kv rest ih =>
    obtain ⟨a, b⟩ := kv
    by_cases hk : a = k
    · have hb : b = m := by
        have := lookupP_cons_eq (a, b) rest k hk
        rw [hl] at this
        exact (Option.some.injEq _ _).mp this.symm
      simp [setKey, hk, hb]
    · have hk' : ((a, b).1 == k) = false := by simp [hk]
      rw [lookupP_cons_ne (a, b) rest k hk'] at hl
      simp [setKey, hk, ih hl]

theorem lookupP_append_of_none (l : List (String × Module)) (k : String)
    (v : Module) (hl : lookupP l k = none) :
    lookupP (l ++ [(k, v)]) k = some v := by
  induction l with
  | nil => simp [lookupP, List.find?]
  | cons kv rest ih =>
    by_cases hk : kv.1 = k
    · rw [lookupP_cons_eq kv rest k hk] at hl
      cases hl
    · have hk' : (kv.1 == k) = false := by simp [hk]
      rw [lookupP_cons_ne kv rest k hk'] at hl
      rw [List.cons_append, lookupP_cons_ne kv (rest ++ [(k, v)]) k hk']
      exact ih hl

theorem lookupP_eq_none_of_find_none (l : List (String × Module)) (k : String)
    (h : l.find? (fun kv => kv.1 == k) = none) : lookupP l k = none := by
  simp [lookupP, h]

theorem lookupP_insertP (l : List (String × Module)) (k : String) (v : Module) :
    lookupP (insertP l k v) k = some v := by
  unfold insertP
  by_cases hf : (l.find? (fun kv => kv.1 == k)).isSome
  · rw [if_pos hf]
    obtain ⟨kv0, hkv0⟩ := Option.isSome_iff_exists.mp hf
    have : lookupP l k = some kv0.2 := by simp [lookupP, hkv0]
    exact lookupP_setKey_self l k kv0.2 v this
  · rw [if_neg hf]
    have hnone : l.find? (fun kv => kv.1 == k) = none :=
      Option.not_isSome_iff_eq_none.mp (by simpa using hf)
    exact lookupP_append_of_none l k v (lookupP_eq_none_of_find_none l k hnone)

theorem lookupProc_cons_ne (kv : String × PluginProcess)
    (rest : List (String × PluginProcess)) (k : String)
    (h : (kv.1 == k) = false) :
    lookupProc (kv :: rest) k = lookupProc rest k := by
  simp [lookupProc, List.find?, h]

theorem lookupProc_setProc_self (l : List (String × PluginProcess)) (k : String)
    (p v : PluginProcess) (hl : lookupProc l k = some p) :
    lookupProc (setProc l k v) k = some v := by
  induction l with
  | nil => simp [lookupProc] at hl
  | cons kv rest ih =>
    by_cases hk : kv.1 = k
    · simp [setProc, hk, lookupProc, List.find?]
    · have hk' : (kv.1 == k) = false := by simp [hk]
      rw [lookupProc_cons_ne kv rest k hk'] at hl
      simp only [setProc, if_neg hk]
      rw [lookupProc_cons_ne kv (setProc rest k v) k hk']
      exact ih hl

theorem addCapabilities_nil (caps : List String) :
    addCapabilities caps [] = caps := rfl

theorem addCapabilities_cons (caps : List String) (c : String)
    (cs : List String) :
    addCapabilities caps (c :: cs) = addCapabilities (addCapability caps c) cs := rfl

theorem mem_addCapability (caps : List String) (c x : String) (hx : x ∈ caps) :
    x ∈ addCapability caps c := by
  by_cases hc : c ∈ caps <;> simp [addCapability, hc, hx]

theorem self_mem_addCapability (caps : List String) (c : String) :
    c ∈ addCapability caps c := by
  by_cases hc : c ∈ caps <;> simp [addCapability, hc]

theorem addCapability_of_mem (caps : List String) (c : String)
    (hc : c ∈ caps) : addCapability caps c = caps := by
  simp [addCapability, hc]

theorem mem_addCapabilities_left (cs : List String) (caps : List String)
    (x : String) (hx : x ∈ caps) : x ∈ addCapabilities caps cs := by
  induction cs generalizing caps with
  | nil => simpa [addCapabilities_nil]
  | cons c cs ih =>
    rw [addCapabilities_cons]
    exact ih (addCapability caps c) (mem_addCapability caps c x hx)

theorem mem_addCapabilities_self (cs : List String) (caps : List String)
    (c : String) (hc : c ∈ cs) : c ∈ addCapabilities caps cs := by
  induction cs generalizing caps with
  | nil => cases hc
  | cons d cs ih =>
    rw [addCapabilities_cons]
    rcases List.mem_cons.mp hc with hc | hc
    · subst hc
      exact mem_addCapabilities_left cs (addCapability caps c) c
        (self_mem_addCapability caps c)
    · exact ih (addCapability caps d) hc

theorem addCapabilities_of_all_mem (cs : List String) (caps : List String)
    (hall : ∀ c ∈ cs, c ∈ caps) : addCapabilities caps cs = caps := by
  induction cs with
  | nil => rfl
  | cons d cs ih =>
    rw [addCapabilities_cons,
        addCapability_of_mem caps d (hall d (List.mem_cons_self d cs))]
    exact ih (fun c hc => hall c (List.mem_cons_of_mem d hc))

theorem addCapabilities_idem (caps : List String) (cs : List String) :
    addCapabilities (addCapabilities caps cs) cs = addCapabilities caps cs :=
  addCapabilities_of_all_mem cs (addCapabilities caps cs)
    (fun c hc => mem_addCapabilities_self cs caps c hc)

theorem filter_ne_of_not_mem (caps : List String) (c : String)
    (hc : c ∉ caps) : caps.filter (fun x => x != c) = caps := by
  apply List.filter_eq_self.mpr
  intro a ha
  have hne : a ≠ c := fun h => hc (h ▸ ha)
  simpa using hne

/-! ## Unfolding lemmas for the routing paths -/

theorem routeMessage_broadcast (h : HubState) (msg : Message)
    (hTo : msg.To = "broadcast") : routeMessage h msg = broadcastToAll h msg := by
  unfold routeMessage
  rw [hTo]
  rw [if_neg (by decide), if_pos rfl]

theorem broadcastToAll_Plugins (h : HubState) (msg : Message) :
    (broadcastToAll h msg).Plugins =
      h.Plugins.map
        (fun kv => if kv.2.IsActive then (kv.1, enqueueFrame kv.2 msg) else kv) := by
  unfold broadcastToAll
  cases h.MainModule with
  | none => rfl
  | some mm => by_cases hA : mm.IsActive <;> simp [hA]

theorem broadcastToAll_MainModule (h : HubState) (msg : Message) (mm : Module)
    (hM : h.MainModule = some mm) (hA : mm.IsActive = true) :
    (broadcastToAll h msg).MainModule = some (enqueueFrame mm msg) := by
  unfold broadcastToAll
  rw [hM]
  simp [hA]

theorem broadcastToClass_Plugins (h : HubState) (msg : Message) (cn : String) :
    (broadcastToClass h msg cn).Plugins =
      h.Plugins.map
        (fun kv =>
          if kv.2.IsActive && hasCapability kv.2 cn then
            (kv.1, enqueueFrame kv.2 msg)
          else kv) := by
  unfold broadcastToClass
  cases h.MainModule with
  | none => rfl
  | some mm => by_cases hA : mm.IsActive && hasCapability mm cn <;> simp [hA]

theorem enqueueFrame_of_room (m : Module) (msg : Message)
    (hLen : m.Send.length < 256) :
    enqueueFrame m msg = { m with Send := m.Send ++ [msg] } := by
  simp [enqueueFrame, hLen]

theorem enqueueFrame_of_full (m : Module) (msg : Message)
    (hLen : 256 ≤ m.Send.length) : enqueueFrame m msg = m := by
  simp [enqueueFrame, Nat.not_lt.mpr hLen]

theorem handleMainModuleRegister_conflict (h : HubState) (mod mm : Module)
    (hM : h.MainModule = some mm) (hconn : mm.conn ≠ mod.conn) :
    handleMainModuleRegister h mod =
      (h, [Effect.sendConn mod.conn (NewMessage "hub" mod.ID "error"
            [("code", PValue.str "main_module_already_active"),
             ("message", PValue.str "Another main module is running"),
             ("active_module", PValue.str mm.ID)]),
          Effect.closeConn mod.conn]) := by
  unfold handleMainModuleRegister
  simp only [hM]
  rw [if_pos hconn]

/-! ## Claim theorems -/

/-- C1 (counterexample): the claim says an envelope with empty `to` is a
wildcard broadcast delivered to every active peer. In the state whose only
peer is the active plugin `beta` (empty send queue), `routeMessage` on an
envelope with `to = ""` leaves the state unchanged — `beta` receives
nothing and the envelope is dropped by the unicast fallback. -/
theorem c1_empty_to_dropped_counterexample :
    emptyToMsg.To = "" ∧ betaPlugin.IsActive = true ∧
    ("beta", betaPlugin) ∈ oneBetaState.Plugins ∧
    routeMessage oneBetaState emptyToMsg = oneBetaState ∧
    betaPlugin.Send = [] := by
  refine ⟨rfl, rfl, ?_, by decide, rfl⟩
  simp [oneBetaState]

/-- C1 (amended): only `to = "broadcast"` is a wildcard broadcast — it is
delivered to every active plugin with queue room (and the main module,
cf. the C2 theorem). An envelope with `to = ""` is instead routed as a
unicast: when no peer is registered under the empty id (no plugins-map
entry with key `""` and the main module's id is non-empty), it is logged
and dropped, leaving the state unchanged. -/
theorem c1_broadcast_routing_amended :
    ∀ (h : HubState) (msg : Message),
      (msg.To = "" → lookupP h.Plugins "" = none →
        (∀ mm, h.MainModule = some mm → mm.ID ≠ "") →
        routeMessage h msg = h) ∧
      (msg.To = "broadcast" →
        ∀ kv ∈ h.Plugins, kv.2.IsActive = true → kv.2.Send.length < 256 →
          (kv.1, { kv.2 with Send := kv.2.Send ++ [msg] }) ∈
            (routeMessage h msg).Plugins) := by
  intro h msg
  constructor
  · intro hTo hLook hMain
    unfold routeMessage
    rw [hTo]
    rw [if_neg (by decide), if_neg (by decide), if_neg (by decide)]
    cases hM : h.MainModule with
    | none => simp [hLook]
    | some mm => simp [hLook, hMain mm hM]
  · intro hTo kv hkv hAct hLen
    rw [routeMessage_broadcast h msg hTo, broadcastToAll_Plugins]
    refine List.mem_map.mpr ⟨kv, hkv, ?_⟩
    rw [hAct, if_pos rfl, enqueueFrame_of_room kv.2 msg hLen]

/-- C1 (witness): the amended theorem applied to the two concrete
scenarios — the empty-`to` envelope is dropped in the `beta`-only state,
and the `broadcast` envelope reaches the active plugin `fast`. -/
theorem c1_broadcast_routing_amended_witness :
    (emptyToMsg.To = "" ∧ lookupP oneBetaState.Plugins "" = none ∧
      routeMessage oneBetaState emptyToMsg = oneBetaState) ∧
    (broadcastMsg.To = "broadcast" ∧ ("fast", fastPlugin) ∈ slowFastState.Plugins ∧
      ("fast", { fastPlugin with Send := fastPlugin.Send ++ [broadcastMsg] }) ∈
        (routeMessage slowFastState broadcastMsg).Plugins) := by
  constructor
  · exact ⟨rfl, by decide,
      (c1_broadcast_routing_amended oneBetaState emptyToMsg).1 rfl (by decide)
        (by intro mm hmm; cases hmm)⟩
  · refine ⟨rfl, by simp [slowFastState], ?_⟩
    exact (c1_broadcast_routing_amended slowFastState broadcastMsg).2 rfl
      ("fast", fastPlugin) (by simp [slowFastState]) rfl (by decide)

/-- C2 (counterexample): the claim says a class-less wildcard broadcast
excludes the main module unless it has subscribed. In the state whose only
peer is the active, subscription-less main module, a `broadcast` envelope
with no `class` payload key is nonetheless enqueued to the main module. -/
theorem c2_main_included_counterexample :
    classlessBroadcastMsg.To = "broadcast" ∧
    payloadGetStr classlessBroadcastMsg.Payload "class" = none ∧
    mainA.Capabilities = [] ∧
    (routeMessage mainOnlyState classlessBroadcastMsg).MainModule =
      some { mainA with Send := [classlessBroadcastMsg] } := by
  exact ⟨rfl, by decide, rfl, by decide⟩

/-- C2 (amended): in a wildcard broadcast (`to = "broadcast"`), the main
module — when present, active, and with queue room — is always included in
the recipient set, for every payload (with or without a `class` field) and
regardless of its subscriptions. -/
theorem c2_wildcard_includes_main_amended :
    ∀ (h : HubState) (msg : Message) (mm : Module),
      h.MainModule = some mm → mm.IsActive = true → mm.Send.length < 256 →
      msg.To = "broadcast" →
      (routeMessage h msg).MainModule =
        some { mm with Send := mm.Send ++ [msg] } := by
  intro h msg mm hM hA hLen hTo
  rw [routeMessage_broadcast h msg hTo,
      broadcastToAll_MainModule h msg mm hM hA,
      enqueueFrame_of_room mm msg hLen]

/-- C2 (witness): the amended theorem at the concrete main-module-only
state and the class-less broadcast envelope. -/
theorem c2_wildcard_includes_main_amended_witness :
    mainOnlyState.MainModule = some mainA ∧ mainA.IsActive = true ∧
    mainA.Send.length < 256 ∧
    (routeMessage mainOnlyState classlessBroadcastMsg).MainModule =
      some { mainA with Send := mainA.Send ++ [classlessBroadcastMsg] } :=
  ⟨rfl, rfl, by decide,
    c2_wildcard_includes_main_amended mainOnlyState classlessBroadcastMsg mainA
      rfl rfl (by decide) rfl⟩

/-- C9: delivery in both broadcast paths is a per-recipient non-blocking
enqueue. For any hub state and frame: an active plugin with queue room has
the frame appended; an active plugin with a saturated queue (≥ 256) keeps
its queue unchanged (its frame alone is dropped) while remaining in the
map; the active main module with queue room receives the frame; and in a
class multicast every active subscriber with room receives the frame. No
recipient's fullness affects any other entry, and dispatch is a total
function of the state (never blocked by a slow consumer). -/
theorem c9_nonblocking_enqueue :
    ∀ (h : HubState) (msg : Message) (cn : String) (kv : String × Module)
      (mm : Module), kv ∈ h.Plugins →
      ((kv.2.IsActive = true → kv.2.Send.length < 256 →
         (kv.1, { kv.2 with Send := kv.2.Send ++ [msg] }) ∈
           (broadcastToAll h msg).Plugins) ∧
       (kv.2.IsActive = true → 256 ≤ kv.2.Send.length →
         kv ∈ (broadcastToAll h msg).Plugins) ∧
       (h.MainModule = some mm → mm.IsActive = true → mm.Send.length < 256 →
         (broadcastToAll h msg).MainModule =
           some { mm with Send := mm.Send ++ [msg] }) ∧
       (kv.2.IsActive = true → hasCapability kv.2 cn = true →
         kv.2.Send.length < 256 →
         (kv.1, { kv.2 with Send := kv.2.Send ++ [msg] }) ∈
           (broadcastToClass h msg cn).Plugins)) := by
  intro h msg cn kv mm hkv
  refine ⟨?_, ?_, ?_, ?_⟩
  · intro hAct hLen
    rw [broadcastToAll_Plugins]
    refine List.mem_map.mpr ⟨kv, hkv, ?_⟩
    rw [hAct, if_pos rfl, enqueueFrame_of_room kv.2 msg hLen]
  · intro hAct hLen
    rw [broadcastToAll_Plugins]
    refine List.mem_map.mpr ⟨kv, hkv, ?_⟩
    rw [hAct, if_pos rfl, enqueueFrame_of_full kv.2 msg hLen]
  · intro hM hA hLen
    rw [broadcastToAll_MainModule h msg mm hM hA,
        enqueueFrame_of_room mm msg hLen]
  · intro hAct hCap hLen
    rw [broadcastToClass_Plugins]
    refine List.mem_map.mpr ⟨kv, hkv, ?_⟩
    rw [hAct, hCap]
    simp [enqueueFrame_of_room kv.2 msg hLen]

set_option maxRecDepth 10000 in
/-- C9 (witness): the saturation scenario — `slow`'s queue holds 256
frames and drops the broadcast, while `fast` still receives it. -/
theorem c9_nonblocking_enqueue_witness :
    ("fast", fastPlugin) ∈ slowFastState.Plugins ∧
    ("slow", slowPlugin) ∈ slowFastState.Plugins ∧
    256 ≤ slowPlugin.Send.length ∧
    ("fast", { fastPlugin with Send := fastPlugin.Send ++ [broadcastMsg] }) ∈
      (broadcastToAll slowFastState broadcastMsg).Plugins ∧
    ("slow", slowPlugin) ∈ (broadcastToAll slowFastState broadcastMsg).Plugins := by
  have hfast : ("fast", fastPlugin) ∈ slowFastState.Plugins :=
    List.mem_cons_of_mem _ (List.mem_cons_self _ _)
  have hslow : ("slow", slowPlugin) ∈ slowFastState.Plugins :=
    List.mem_cons_self _ _
  have hslowLen : 256 ≤ slowPlugin.Send.length := by
    simp [slowPlugin, List.length_replicate]
  refine ⟨hfast, hslow, hslowLen, ?_, ?_⟩
  · exact ((c9_nonblocking_enqueue slowFastState broadcastMsg ""
      ("fast", fastPlugin) fastPlugin hfast)).1 rfl (by decide)
  · exact ((c9_nonblocking_enqueue slowFastState broadcastMsg ""
      ("slow", slowPlugin) slowPlugin hslow)).2.1 rfl hslowLen

/-- C3: `ReadPump` always overwrites the envelope's `from` with the peer's
current id — also for a still-unregistered peer, whose id is `""`. The
general clause shows the overwrite is unconditional; the concrete clause
evaluates the code at the failing input: an unregistered connection
(`NewModule 5`, id `""`) forwarding a frame whose sender-supplied `from`
is `"timer-plugin"` hands the hub an envelope with `from = ""`, not the
preserved sender value the spec (and the code's own comment) describe. -/
theorem c3_readpump_from_overwritten :
    (∀ (m : Module) (msg : Message), (readPumpFromRewrite m msg).From = m.ID) ∧
    timerPluginFrame.From = "timer-plugin" ∧
    (NewModule 5).ID = "" ∧
    (readPumpFromRewrite (NewModule 5) timerPluginFrame).From = "" := by
  refine ⟨?_, rfl, rfl, rfl⟩
  intro m msg
  unfold readPumpFromRewrite
  by_cases hid : m.ID ≠ "" <;> simp [hid]

/-- C4 (counterexample): the claim says a register envelope with neither a
non-empty `id` nor a `plugin_id` is fatal (logged, dropped from pending,
closed) and that the plugins map never holds an empty id. Evaluating
`handleRegister` on a hub with one fresh pending connection and a register
envelope with empty payload: the peer is bound, registered, and stored in
the plugins map under the key `""`, and no close is emitted. -/
theorem c4_missing_id_registered_counterexample :
    payloadGetStr noIdRegisterMsg.Payload "id" = none ∧
    payloadGetStr noIdRegisterMsg.Payload "plugin_id" = none ∧
    (lookupP (handleRegister onePendingState noIdRegisterMsg).1.Plugins "").isSome = true ∧
    Effect.closeConn 0 ∉ (handleRegister onePendingState noIdRegisterMsg).2 ∧
    (handleRegister onePendingState noIdRegisterMsg).1.PendingModules = [] := by
  exact ⟨rfl, rfl, by decide, by decide, by decide⟩

/-- C4 (amended): `handleRegister` performs no missing-id validation. A
register envelope whose payload yields an empty `id` and no `plugin_id`
(and is not a main-module registration) binds a pending module, registers
it with empty id — storing it in the plugins map under the key `""` — and
emits no close; the peer is removed from pending by binding, not as an
error. The plugins map may therefore hold a peer with empty id. -/
theorem c4_missing_id_not_rejected_amended :
    ∀ (h : HubState) (msg : Message) (m : Module) (rest : List Module),
      payloadStr msg.Payload "id" = "" →
      payloadGetStr msg.Payload "plugin_id" = none →
      payloadStr msg.Payload "component_type" ≠ "main_module" →
      findRemovePending h.PendingModules "" = some (m, rest) →
      (lookupP (handleRegister h msg).1.Plugins "").isSome = true ∧
      (∀ c, Effect.closeConn c ∉ (handleRegister h msg).2) ∧
      (handleRegister h msg).1.PendingModules = rest := by
  intro h msg m rest hid hplug hct hfind
  have hreg : handleRegister h msg =
      handlePluginRegister { h with PendingModules := rest }
        { m with ID := "", Name := payloadStr msg.Payload "name",
                 Typ := payloadStr msg.Payload "type",
                 Host := payloadStr msg.Payload "host",
                 Port := payloadStr msg.Payload "port", IsActive := true } := by
    unfold handleRegister
    rw [hid, hplug]
    rw [if_neg (by simp)]
    simp only [hfind]
    rw [if_neg hct]
  rw [hreg]
  unfold handlePluginRegister
  refine ⟨?_, ?_, rfl⟩
  · simp only [lookupP_insertP, Option.isSome_some]
  · intro c
    simp only [List.mem_cons]
    rintro (h1 | h1)
    · cases h1
    · revert h1
      unfold notifyPluginOnline
      cases hM : ({ h with PendingModules := rest } : HubState).MainModule with
      | none => simp
      | some mm =>
        by_cases hA : mm.IsActive <;> by_cases hE :
            (({ h with PendingModules := rest } : HubState).ExpectedPlugins.contains
              "") <;> simp [hM, hA, hE]

/-- C4 (witness): the amended theorem at the concrete one-pending state
and the empty-payload register envelope. -/
theorem c4_missing_id_not_rejected_amended_witness :
    payloadStr noIdRegisterMsg.Payload "id" = "" ∧
    findRemovePending onePendingState.PendingModules "" = some (NewModule 0, []) ∧
    (lookupP (handleRegister onePendingState noIdRegisterMsg).1.Plugins "").isSome = true ∧
    (handleRegister onePendingState noIdRegisterMsg).1.PendingModules = [] := by
  have := c4_missing_id_not_rejected_amended onePendingState noIdRegisterMsg
    (NewModule 0) [] rfl rfl (by decide) (by decide)
  exact ⟨rfl, by decide, this.1, this.2.2⟩

/-- C5: while a main module is active, a register envelope carrying
`component_type = "main_module"` from a different connection leaves the
main-module slot (and the plugins map) unchanged, and the offender is sent
an `error` envelope whose payload `code` is `main_module_already_active`
and then closed — so at most one peer ever holds the main-module role. -/
theorem c5_main_module_unique :
    ∀ (h : HubState) (msg : Message) (mm m : Module) (rest : List Module),
      h.MainModule = some mm →
      payloadGetStr msg.Payload "plugin_id" = none →
      payloadStr msg.Payload "component_type" = "main_module" →
      findRemovePending h.PendingModules (payloadStr msg.Payload "id") =
        some (m, rest) →
      mm.conn ≠ m.conn →
      (handleRegister h msg).1.MainModule = some mm ∧
      (handleRegister h msg).1.Plugins = h.Plugins ∧
      (handleRegister h msg).2 =
        [Effect.sendConn m.conn
          (NewMessage "hub" (payloadStr msg.Payload "id") "error"
            [("code", PValue.str "main_module_already_active"),
             ("message", PValue.str "Another main module is running"),
             ("active_module", PValue.str mm.ID)]),
         Effect.closeConn m.conn] := by
  intro h msg mm m rest hM hplug hct hfind hconn
  have hreg : handleRegister h msg =
      handleMainModuleRegister { h with PendingModules := rest }
        { m with ID := payloadStr msg.Payload "id",
                 Name := payloadStr msg.Payload "name",
                 Typ := payloadStr msg.Payload "type",
                 Host := payloadStr msg.Payload "host",
                 Port := payloadStr msg.Payload "port", IsActive := true } := by
    unfold handleRegister
    rw [hplug]
    rw [if_neg (by simp)]
    simp only [hfind]
    rw [if_pos hct]
  rw [hreg]
  rw [handleMainModuleRegister_conflict { h with PendingModules := rest } _ mm
    (by exact hM) (by exact hconn)]
  exact ⟨hM, rfl, rfl⟩

/-- C5 (witness): the theorem at the concrete state with main module
`mainA` active and a pending connection sending a second main-module
registration. -/
theorem c5_main_module_unique_witness :
    mainPlusPendingState.MainModule = some mainA ∧
    payloadStr mainBRegisterMsg.Payload "component_type" = "main_module" ∧
    (handleRegister mainPlusPendingState mainBRegisterMsg).1.MainModule = some mainA ∧
    (handleRegister mainPlusPendingState mainBRegisterMsg).2 =
      [Effect.sendConn 7 (NewMessage "hub" "mainB" "error"
          [("code", PValue.str "main_module_already_active"),
           ("message", PValue.str "Another main module is running"),
           ("active_module", PValue.str "mainA")]),
       Effect.closeConn 7] := by
  have := c5_main_module_unique mainPlusPendingState mainBRegisterMsg mainA
    (NewModule 7) [] rfl rfl rfl (by decide) (by decide)
  exact ⟨rfl, rfl, this.1, this.2.2⟩

/-- C10: the registration binder. (1) Whenever the pending-module search
returns a module, that module's id is empty or equal to the resolved id,
and it came from the pending set. (2) On the standard registration path,
when no pending module matches, `handleRegister` leaves the state
unchanged and emits nothing (the registration is ignored with a log).
(3) With two unregistered pending connections, the envelope binds the one
first in iteration order (conn 0) — the binding carries no information
about which connection actually sent the envelope. -/
theorem c10_pending_binding :
    (∀ (pending : List Module) (id : String) (m : Module) (rest : List Module),
       findRemovePending pending id = some (m, rest) →
       (m.ID = "" ∨ m.ID = id) ∧ m ∈ pending) ∧
    (∀ (h : HubState) (msg : Message),
       ¬((payloadGetStr msg.Payload "plugin_id").isSome = true ∧
          payloadStr msg.Payload "id" = "") →
       findRemovePending h.PendingModules (payloadStr msg.Payload "id") = none →
       handleRegister h msg = (h, [])) ∧
    ((handleRegister twoPendingState p1RegisterMsg).1.PendingModules =
        [NewModule 1] ∧
     (lookupP (handleRegister twoPendingState p1RegisterMsg).1.Plugins "p1").map
        Module.conn = some 0) := by
  refine ⟨?_, ?_, by decide, by decide⟩
  · intro pending id
    induction pending with
    | nil => intro m rest hfind; cases hfind
    | cons m0 rest0 ih =>
      intro m rest hfind
      unfold findRemovePending at hfind
      by_cases h0 : m0.ID = "" ∨ m0.ID = id
      · rw [if_pos h0] at hfind
        cases hfind
        exact ⟨h0, List.mem_cons_self m0 rest0⟩
      · rw [if_neg h0] at hfind
        cases hrec : findRemovePending rest0 id with
        | none => rw [hrec] at hfind; cases hfind
        | some fr =>
          rw [hrec] at hfind
          obtain ⟨f, r⟩ := fr
          cases hfind
          obtain ⟨hpred, hmem⟩ := ih _ _ hrec
          exact ⟨hpred, List.mem_cons_of_mem m0 hmem⟩
  · intro h msg hnot hfind
    unfold handleRegister
    rw [if_neg hnot]
    rw [hfind]

/-- C10 (witness): the binding predicate and the no-match case at concrete
inputs — the two-pending state binds `NewModule 0`, and a register for
`p1` on a hub with no pending modules is ignored. -/
theorem c10_pending_binding_witness :
    (findRemovePending [NewModule 0, NewModule 1] "p1" =
        some (NewModule 0, [NewModule 1]) ∧
      ((NewModule 0).ID = "" ∨ (NewModule 0).ID = "p1") ∧
      NewModule 0 ∈ [NewModule 0, NewModule 1]) ∧
    (findRemovePending oneBetaState.PendingModules
        (payloadStr p1RegisterMsg.Payload "id") = none ∧
      handleRegister oneBetaState p1RegisterMsg = (oneBetaState, [])) := by
  constructor
  · refine ⟨by decide, ?_⟩
    exact c10_pending_binding.1 [NewModule 0, NewModule 1] "p1" (NewModule 0)
      [NewModule 1] (by decide)
  · refine ⟨by decide, ?_⟩
    exact c10_pending_binding.2.1 oneBetaState p1RegisterMsg (by decide) (by decide)

/-- C6: the restart cap. (1) `StartPlugin` refuses — returning the
"exceeded max restarts" error and leaving the state unchanged — whenever
the plugin's restart counter is positive and has reached `MaxRestarts`
(and the plugin is a known local one not currently running). (2) When the
counter has reached the cap, a crash (`monitorProcess` with a non-nil exit
error) records status `error` and the error, closes the exit channel, and
attempts no restart: the counter is unchanged. (3) The concrete scenario:
`restart_on_crash = true`, `max_restarts = 2`, crashing after every
start — after the second crash the status is `error`, `restart_count = 2`,
`last_error` is set, a further `StartPlugin` returns the cap error without
touching the state, and `ResetRestartCount` resets the counter to 0. -/
theorem c6_restart_cap :
    (∀ (pm : PMState) (id : String) (p : PluginProcess) (sOk : Bool),
       lookupProc pm.plugins id = some p →
       p.Config.typ ≠ "external" →
       ¬(p.Status = "online" ∨ p.Status = "starting") →
       p.RestartCount > 0 → p.RestartCount ≥ p.Config.MaxRestarts →
       StartPlugin pm id sOk = (pm, Except.error "exceeded max restarts")) ∧
    (∀ (pm : PMState) (id : String) (p : PluginProcess) (e : String) (sOk : Bool),
       lookupProc pm.plugins id = some p →
       p.RestartCount ≥ p.Config.MaxRestarts →
       lookupProc (monitorProcess pm id (some e) sOk).plugins id =
         some { p with exitChanOpen := false, Status := "error",
                       LastError := some e }) ∧
    (lookupProc capTwoPM3.plugins "p" =
       some { Config := capTwoCfg, Status := "error",
              LastError := some "exit status 1", RestartCount := 2,
              hasProcess := true, exitChanOpen := false } ∧
     StartPlugin capTwoPM3 "p" true =
       (capTwoPM3, Except.error "exceeded max restarts") ∧
     (lookupProc (ResetRestartCount capTwoPM3 "p").1.plugins "p").map
        PluginProcess.RestartCount = some 0) := by
  refine ⟨?_, ?_, rfl, rfl, rfl⟩
  · intro pm id p sOk hlk htyp hrun hpos hcap
    unfold StartPlugin
    simp only [hlk]
    rw [if_neg htyp, if_neg hrun, if_pos ⟨hpos, hcap⟩]
  · intro pm id p e sOk hlk hcap
    unfold monitorProcess
    simp only [hlk]
    rw [if_neg (by simp [Int.not_lt.mpr hcap])]
    exact lookupProc_setProc_self pm.plugins id p _ hlk

/-- C6 (witness): the general clauses applied to the concrete
post-second-crash state `capTwoPM3` (counter 2, cap 2). -/
theorem c6_restart_cap_witness :
    (lookupProc capTwoPM3.plugins "p" =
      some { Config := capTwoCfg, Status := "error",
             LastError := some "exit status 1", RestartCount := 2,
             hasProcess := true, exitChanOpen := false }) ∧
    StartPlugin capTwoPM3 "p" true =
      (capTwoPM3, Except.error "exceeded max restarts") ∧
    lookupProc (monitorProcess capTwoPM3 "p" (some "exit status 1") true).plugins
        "p" =
      some { Config := capTwoCfg, Status := "error",
             LastError := some "exit status 1", RestartCount := 2,
             hasProcess := true, exitChanOpen := false } := by
  refine ⟨rfl, ?_, ?_⟩
  · exact c6_restart_cap.1 capTwoPM3 "p"
      { Config := capTwoCfg, Status := "error",
        LastError := some "exit status 1", RestartCount := 2,
        hasProcess := true, exitChanOpen := false } true rfl
      (by decide) (by decide) (by decide) (by decide)
  · exact c6_restart_cap.2.1 capTwoPM3 "p"
      { Config := capTwoCfg, Status := "error",
        LastError := some "exit status 1", RestartCount := 2,
        hasProcess := true, exitChanOpen := false } "exit status 1" true rfl
      (by decide)

/-- `StopPlugin` never touches the `shuttingDown` latch. -/
theorem StopPlugin_shuttingDown (pm : PMState) (id : String) :
    ((StopPlugin pm id).1).shuttingDown = pm.shuttingDown := by
  unfold StopPlugin
  cases lookupProc pm.plugins id with
  | none => rfl
  | some p => by_cases hp : p.hasProcess = false <;> simp [hp]

/-- `StartPlugin` never touches the `shuttingDown` latch. -/
theorem StartPlugin_shuttingDown (pm : PMState) (id : String) (sOk : Bool) :
    ((StartPlugin pm id sOk).1).shuttingDown = pm.shuttingDown := by
  unfold StartPlugin
  split
  · rfl
  · split
    · rfl
    · split
      · rfl
      · split
        · rfl
        · split
          · rfl
          · rfl

/-- `monitorProcess` never touches the `shuttingDown` latch. -/
theorem monitorProcess_shuttingDown (pm : PMState) (id : String)
    (err : Option String) (sOk : Bool) :
    (monitorProcess pm id err sOk).shuttingDown = pm.shuttingDown := by
  unfold monitorProcess
  split
  · rfl
  · split
    · dsimp only []
      split
      · rw [StartPlugin_shuttingDown]
      · rfl
    · dsimp only []
      split
      · rw [StartPlugin_shuttingDown]
      · rfl

/-- The fold of `StopPlugin` in `StopAllPlugins` preserves the latch. -/
theorem foldl_StopPlugin_shuttingDown (l : List (String × PluginProcess))
    (acc : PMState) :
    (l.foldl (fun a kv => (StopPlugin a kv.1).1) acc).shuttingDown =
      acc.shuttingDown := by
  induction l generalizing acc with
  | nil => rfl
  | cons kv rest ih =>
    rw [List.foldl_cons, ih, StopPlugin_shuttingDown]

/-- C8: the shutdown latch. (1) `StopAllPlugins` sets `shuttingDown`.
(2) The latch is one-shot: no supervisor operation (start, stop, stop-all,
process-exit monitoring, counter reset) ever clears it. (3) Once it is
set, a child exit is never followed by a respawn: `monitorProcess` leaves
the restart counter unchanged and the plugin ends in status `error` or
`stopped`, never `starting`. -/
theorem c8_shutdown_latch :
    (∀ pm : PMState, (StopAllPlugins pm).shuttingDown = true) ∧
    (∀ (pm : PMState) (op : PMOp), pm.shuttingDown = true →
       (applyPMOp pm op).shuttingDown = true) ∧
    (∀ (pm : PMState) (id : String) (err : Option String) (sOk : Bool)
       (p : PluginProcess),
       pm.shuttingDown = true →
       lookupProc pm.plugins id = some p →
       ∃ q, lookupProc (monitorProcess pm id err sOk).plugins id = some q ∧
         q.RestartCount = p.RestartCount ∧
         (q.Status = "error" ∨ q.Status = "stopped")) := by
  refine ⟨?_, ?_, ?_⟩
  · intro pm
    unfold StopAllPlugins
    rw [foldl_StopPlugin_shuttingDown]
  · intro pm op hsd
    cases op with
    | start id sOk => rw [applyPMOp, StartPlugin_shuttingDown]; exact hsd
    | stop id => rw [applyPMOp, StopPlugin_shuttingDown]; exact hsd
    | stopAll =>
      rw [applyPMOp]
      unfold StopAllPlugins
      rw [foldl_StopPlugin_shuttingDown]
    | monitorExit id err sOk =>
      rw [applyPMOp, monitorProcess_shuttingDown]; exact hsd
    | resetCount id =>
      rw [applyPMOp]
      unfold ResetRestartCount
      cases lookupProc pm.plugins id with
      | none => exact hsd
      | some p => exact hsd
  · intro pm id err sOk p hsd hlk
    unfold monitorProcess
    simp only [hlk]
    rw [if_neg (by simp [hsd])]
    cases err with
    | some e =>
      exact ⟨_, lookupProc_setProc_self pm.plugins id p _ hlk, rfl, Or.inl rfl⟩
    | none =>
      exact ⟨_, lookupProc_setProc_self pm.plugins id p _ hlk, rfl, Or.inr rfl⟩

/-- C8 (witness): the latch clauses at the concrete shutting-down
supervisor — a crash while shutting down keeps the counter at 1 and ends
in status `error`, and every operation keeps the latch set. -/
theorem c8_shutdown_latch_witness :
    shuttingPM.shuttingDown = true ∧
    (applyPMOp shuttingPM (PMOp.monitorExit "p" (some "killed") true)).shuttingDown
      = true ∧
    (∃ q, lookupProc (monitorProcess shuttingPM "p" (some "killed") true).plugins
        "p" = some q ∧
      q.RestartCount = (1 : Int) ∧ (q.Status = "error" ∨ q.Status = "stopped")) := by
  refine ⟨rfl, ?_, ?_⟩
  · exact c8_shutdown_latch.2.1 shuttingPM
      (PMOp.monitorExit "p" (some "killed") true) rfl
  · exact c8_shutdown_latch.2.2 shuttingPM "p" (some "killed") true
      { Config := capTwoCfg, Status := "starting", LastError := none,
        RestartCount := 1, hasProcess := true, exitChanOpen := true } rfl rfl

/-- Writing `setCaps` twice keeps only the second write. -/
theorem setCaps_setCaps (m : Module) (a b : List String) :
    setCaps (setCaps m a) b = setCaps m b := rfl

/-- Reading back a `setCaps` write. -/
theorem setCaps_Capabilities (m : Module) (a : List String) :
    (setCaps m a).Capabilities = a := rfl

/-- `handleSubscribe` with no extracted class names is a no-op. -/
theorem handleSubscribe_nil (h : HubState) (msg : Message)
    (hc : subClassNames msg.Payload = []) : handleSubscribe h msg = h := by
  unfold handleSubscribe
  cases hM : h.MainModule with
  | none =>
    cases hLk : lookupP h.Plugins msg.From with
    | none => simp [hLk]
    | some m => simp [hLk, hc]
  | some mm =>
    by_cases hid : mm.ID = msg.From
    · simp [hid, hc]
    · cases hLk : lookupP h.Plugins msg.From with
      | none => simp [hid, hLk]
      | some m => simp [hid, hLk, hc]

/-- `handleSubscribe` when the sender is the main module. -/
theorem handleSubscribe_main (h : HubState) (msg : Message) (mm : Module)
    (hM : h.MainModule = some mm) (hid : mm.ID = msg.From)
    (hc : subClassNames msg.Payload ≠ []) :
    handleSubscribe h msg =
      { h with MainModule := some (setCaps mm (addCapabilities mm.Capabilities (subClassNames msg.Payload))) } := by
  unfold handleSubscribe
  simp [hM, hid, hc, setCaps]

/-- `handleSubscribe` when the sender is a plugins-map entry. -/
theorem handleSubscribe_plugin (h : HubState) (msg : Message) (m : Module)
    (hmain : ∀ mm, h.MainModule = some mm → mm.ID ≠ msg.From)
    (hLk : lookupP h.Plugins msg.From = some m)
    (hc : subClassNames msg.Payload ≠ []) :
    handleSubscribe h msg =
      { h with Plugins := setKey h.Plugins msg.From (setCaps m (addCapabilities m.Capabilities (subClassNames msg.Payload))) } := by
  unfold handleSubscribe
  cases hM : h.MainModule with
  | none => simp [hLk, hc, setCaps]
  | some mm => simp [hLk, hc, hmain mm hM, setCaps]

/-- `handleSubscribe` when the sender is unknown. -/
theorem handleSubscribe_unknown (h : HubState) (msg : Message)
    (hmain : ∀ mm, h.MainModule = some mm → mm.ID ≠ msg.From)
    (hLk : lookupP h.Plugins msg.From = none) :
    handleSubscribe h msg = h := by
  unfold handleSubscribe
  cases hM : h.MainModule with
  | none => simp [hLk]
  | some mm => simp [hLk, hmain mm hM]

/-- `handleUnsubscribe` when the sender is a plugins-map entry. -/
theorem handleUnsubscribe_plugin (h : HubState) (msg : Message) (c : String)
    (m : Module) (hc : payloadGetStr msg.Payload "class" = some c)
    (hmain : ∀ mm, h.MainModule = some mm → mm.ID ≠ msg.From)
    (hLk : lookupP h.Plugins msg.From = some m) :
    handleUnsubscribe h msg =
      { h with Plugins := setKey h.Plugins msg.From (setCaps m (m.Capabilities.filter (fun x => x != c))) } := by
  unfold handleUnsubscribe
  simp only [hc]
  cases hM : h.MainModule with
  | none => simp [hLk, setCaps]
  | some mm => simp [hLk, hmain mm hM, setCaps]

/-- `handleUnsubscribe` when the sender is the main module. -/
theorem handleUnsubscribe_main (h : HubState) (msg : Message) (c : String)
    (mm : Module) (hc : payloadGetStr msg.Payload "class" = some c)
    (hM : h.MainModule = some mm) (hid : mm.ID = msg.From) :
    handleUnsubscribe h msg =
      { h with MainModule := some (setCaps mm (mm.Capabilities.filter (fun x => x != c))) } := by
  unfold handleUnsubscribe
  simp only [hc]
  simp [hM, hid, setCaps]

/-- C7: subscription bookkeeping laws. (1) `handleSubscribe` is
idempotent: handling the same subscribe envelope twice equals handling it
once (so re-subscribing adds no duplicate). (2) Subscribing a single class
already in a registered plugin's capabilities leaves the state unchanged.
(3) For a registered plugin, `handleUnsubscribe` replaces the capabilities
by exactly the original list with the named class filtered out — and when
the class is absent it is a no-op (not an error), leaving the whole state
unchanged. (4) The same two facts with the main module as sender. -/
theorem c7_subscription_laws :
    (∀ (h : HubState) (msg : Message),
       handleSubscribe (handleSubscribe h msg) msg = handleSubscribe h msg) ∧
    (∀ (h : HubState) (msg : Message) (c : String) (m : Module),
       subClassNames msg.Payload = [c] →
       (∀ mm, h.MainModule = some mm → mm.ID ≠ msg.From) →
       lookupP h.Plugins msg.From = some m →
       c ∈ m.Capabilities →
       handleSubscribe h msg = h) ∧
    (∀ (h : HubState) (msg : Message) (c : String) (m : Module),
       payloadGetStr msg.Payload "class" = some c →
       (∀ mm, h.MainModule = some mm → mm.ID ≠ msg.From) →
       lookupP h.Plugins msg.From = some m →
       (lookupP (handleUnsubscribe h msg).Plugins msg.From =
          some (setCaps m (m.Capabilities.filter (fun x => x != c))) ∧
        (c ∉ m.Capabilities → handleUnsubscribe h msg = h))) ∧
    (∀ (h : HubState) (msg : Message) (c : String) (mm : Module),
       payloadGetStr msg.Payload "class" = some c →
       h.MainModule = some mm → mm.ID = msg.From →
       ((handleUnsubscribe h msg).MainModule =
          some (setCaps mm (mm.Capabilities.filter (fun x => x != c))) ∧
        (c ∉ mm.Capabilities → handleUnsubscribe h msg = h))) := by
  refine ⟨?_, ?_, ?_, ?_⟩
  · intro h msg
    by_cases hc : subClassNames msg.Payload = []
    · rw [handleSubscribe_nil h msg hc, handleSubscribe_nil h msg hc]
    · cases hM : h.MainModule with
      | some mm =>
        by_cases hid : mm.ID = msg.From
        · rw [handleSubscribe_main h msg mm hM hid hc]
          rw [handleSubscribe_main _ msg
            (setCaps mm (addCapabilities mm.Capabilities
              (subClassNames msg.Payload))) rfl hid hc]
          rw [setCaps_Capabilities, setCaps_setCaps, addCapabilities_idem]
        · have hmain : ∀ mm0, h.MainModule = some mm0 → mm0.ID ≠ msg.From := by
            intro mm0 h0
            rw [hM] at h0
            cases h0
            exact hid
          cases hLk : lookupP h.Plugins msg.From with
          | none =>
            rw [handleSubscribe_unknown h msg hmain hLk,
                handleSubscribe_unknown h msg hmain hLk]
          | some m =>
            rw [handleSubscribe_plugin h msg m hmain hLk hc]
            have hLk2 : lookupP (setKey h.Plugins msg.From
                (setCaps m (addCapabilities m.Capabilities
                  (subClassNames msg.Payload)))) msg.From =
                some (setCaps m (addCapabilities m.Capabilities
                  (subClassNames msg.Payload))) :=
              lookupP_setKey_self h.Plugins msg.From m _ hLk
            have hmain2 : ∀ mm0,
                ({ h with Plugins := setKey h.Plugins msg.From (setCaps m (addCapabilities m.Capabilities (subClassNames msg.Payload))) } : HubState).MainModule =
                  some mm0 → mm0.ID ≠ msg.From :=
              fun mm0 h0 => hmain mm0 h0
            rw [handleSubscribe_plugin _ msg _ hmain2 hLk2 hc]
            simp only [setKey_setKey, setCaps_Capabilities, setCaps_setCaps,
              addCapabilities_idem]
      | none =>
        have hmain : ∀ mm0, h.MainModule = some mm0 → mm0.ID ≠ msg.From := by
          intro mm0 h0
          rw [hM] at h0
          cases h0
        cases hLk : lookupP h.Plugins msg.From with
        | none =>
          rw [handleSubscribe_unknown h msg hmain hLk,
              handleSubscribe_unknown h msg hmain hLk]
        | some m =>
          rw [handleSubscribe_plugin h msg m hmain hLk hc]
          have hLk2 : lookupP (setKey h.Plugins msg.From
              (setCaps m (addCapabilities m.Capabilities
                (subClassNames msg.Payload)))) msg.From =
              some (setCaps m (addCapabilities m.Capabilities
                (subClassNames msg.Payload))) :=
            lookupP_setKey_self h.Plugins msg.From m _ hLk
          have hmain2 : ∀ mm0,
              ({ h with Plugins := setKey h.Plugins msg.From (setCaps m (addCapabilities m.Capabilities (subClassNames msg.Payload))) } : HubState).MainModule =
                some mm0 → mm0.ID ≠ msg.From :=
            fun mm0 h0 => hmain mm0 h0
          rw [handleSubscribe_plugin _ msg _ hmain2 hLk2 hc]
          simp only [setKey_setKey, setCaps_Capabilities, setCaps_setCaps,
            addCapabilities_idem]
  · intro h msg c m hcns hmain hLk hmem
    rw [handleSubscribe_plugin h msg m hmain hLk (by rw [hcns]; simp)]
    rw [hcns, addCapabilities_cons, addCapabilities_nil,
        addCapability_of_mem m.Capabilities c hmem]
    show { h with Plugins := setKey h.Plugins msg.From m } = h
    rw [setKey_self h.Plugins msg.From m hLk]
  · intro h msg c m hc hmain hLk
    rw [handleUnsubscribe_plugin h msg c m hc hmain hLk]
    constructor
    · exact lookupP_setKey_self h.Plugins msg.From m _ hLk
    · intro hnm
      rw [filter_ne_of_not_mem m.Capabilities c hnm]
      show { h with Plugins := setKey h.Plugins msg.From m } = h
      rw [setKey_self h.Plugins msg.From m hLk]
  · intro h msg c mm hc hM hid
    rw [handleUnsubscribe_main h msg c mm hc hM hid]
    constructor
    · rfl
    · intro hnm
      rw [filter_ne_of_not_mem mm.Capabilities c hnm]
      show { h with MainModule := some mm } = h
      rw [← hM]

/-- C7 (witness): unsubscribing `timer` from `beta` (subscribed to
`timer`) leaves exactly the filtered capability list; unsubscribing the
absent class `score` leaves the whole hub state unchanged. -/
theorem c7_subscription_laws_witness :
    (payloadGetStr unsubTimerMsg.Payload "class" = some "timer" ∧
     lookupP betaTimerState.Plugins "beta" = some betaTimer ∧
     lookupP (handleUnsubscribe betaTimerState unsubTimerMsg).Plugins "beta" =
       some (setCaps betaTimer
         (betaTimer.Capabilities.filter (fun x => x != "timer")))) ∧
    ("score" ∉ betaTimer.Capabilities ∧
     handleUnsubscribe betaTimerState unsubAbsentMsg = betaTimerState) := by
  constructor
  · refine ⟨rfl, by decide, ?_⟩
    exact (c7_subscription_laws.2.2.1 betaTimerState unsubTimerMsg "timer"
      betaTimer rfl (fun mm hmm => by cases hmm) (by decide)).1
  · refine ⟨by decide, ?_⟩
    exact (c7_subscription_laws.2.2.1 betaTimerState unsubAbsentMsg "score"
      betaTimer rfl (fun mm hmm => by cases hmm) (by decide)).2 (by decide)

end BroadcastHub
